import Mathlib

/-!
# OpenFGA server facade — verification development

A shallow embedding of the request pipeline in `pkg/server/server.go`:
the self-authorization gate (`CheckAuthz`, `CheckCreateStoreAuthz`,
`CheckAuthzListStores`), the per-RPC handlers that it guards, the Check
error mapping, the consistency-parameter validation, the module extraction
for Write, the response status-code headers, and the construction-time
validation in `NewServerWithOpts`.

External collaborators (the `pkg/authz` authorizer, the typesystem, the
storage commands, request proto validation and the check resolver) are
modelled as oracles supplied per request: each handler is a pure function
of the server, the request context, an environment holding the oracle
answers, and the request.  Effects on the HTTP transport
(`transport.SetHeader`) are modelled by returning the list of headers the
handler sets, and "the method body ran" (the command `Execute` call) by a
boolean in the result.
-/

namespace OpenFGA

/-- `openfgav1.ConsistencyPreference`. -/
inductive ConsistencyPreference
  | unspecified
  | minimizeLatency
  | higherConsistency
deriving DecidableEq, Repr

/-- Plain Go errors that flow through the handlers (`errors.Is` targets and
opaque errors returned by collaborators). -/
inductive GoError
  | resolutionDepthExceeded
  | conditionEvaluationFailed
  | deadlineExceeded
  | unknownAPIMethod (m : String)
  | other (msg : String)
deriving DecidableEq, Repr

/-- gRPC status codes used by `server.go`. -/
inductive StatusCode
  | internal
  | permissionDenied
  | invalidArgument
deriving DecidableEq, Repr

/-- Errors a handler can return to the caller: `status.Error` values and the
typed errors of `pkg/server/errors` produced by the mapping in the handlers. -/
inductive ApiError
  | statusError (code : StatusCode) (msg : String)
  | authorizationModelResolutionTooComplex
  | throttledTimeout
  | validationError (e : GoError)
  | handleTupleValidateError (e : GoError)
  | handleError (e : GoError)
  | internalError (e : GoError)
  | goErr (e : GoError)
deriving DecidableEq, Repr

/-- `status.Error(codes.Internal, "client ID not found in context")`. -/
def internalNoClientIDErr : ApiError :=
  ApiError.statusError StatusCode.internal "client ID not found in context"

/-- `status.Error(codes.PermissionDenied, "permission denied")`. -/
def permissionDeniedErr : ApiError :=
  ApiError.statusError StatusCode.permissionDenied "permission denied"

/-- Headers set on the HTTP transport by a handler. -/
inductive HttpHeader
  | xHttpCode (code : Nat)
  | authorizationModelID (id : String)
deriving DecidableEq, Repr

/-- `authclaims.AuthClaims`. -/
structure AuthClaims where
  clientID : String
deriving DecidableEq, Repr

/-- The per-request context, as far as the handlers consult it. -/
structure RequestContext where
  authClaims : Option AuthClaims
  requestValidated : Bool
deriving DecidableEq, Repr

/-- `context.Background()`: carries no auth claims and no validation mark.
`StreamedListObjects` passes it to its authorization gate. -/
def backgroundContext : RequestContext := { authClaims := none, requestValidated := false }

/-- Modelled from the spec: `authn.AuthClaimsFromContext` (internal/authn, not
under src/) extracts the auth claims from the request context; per the spec a
clientID that is absent or empty counts as not found. -/
def authClaimsFromContext (ctx : RequestContext) : Option AuthClaims :=
  match ctx.authClaims with
  | none => none
  | some c => if c.clientID = "" then none else some c

/-- The `pkg/authz` authorizer (external to src/), abstracted as the three
operations `server.go` invokes on it. -/
structure AuthorizerOracle where
  authorize : String → String → String → List String → Except GoError Bool
  authorizeCreateStore : String → Except GoError Bool
  listAuthorizedStores : String → Except GoError (List String)

/-- The resolved `typesystem.TypeSystem`, abstracted as the operations the
claims consult: the resolved model id and `GetModuleForObjectTypeRelation`. -/
structure TypeSystem where
  modelID : String
  moduleOf : String → String → Except GoError String

/-- The server fields the embedded handlers read. -/
structure Server where
  experimentals : List String
  fgaOnFGAEnabled : Bool
  fgaOnFGAStoreID : String
  fgaOnFGAModelID : String
  authorizer : Option AuthorizerOracle

def ExperimentalEnableConsistencyParams : String := "enable-consistency-params"

def ExperimentalFGAOnFGAParams : String := "enable-fga-on-fga"

/-- `Server.IsExperimentallyEnabled`. -/
def Server.IsExperimentallyEnabled (s : Server) (flag : String) : Bool :=
  s.experimentals.contains flag

/-- `Server.fgaOnFgaIsEnabled`. -/
def Server.fgaOnFgaIsEnabled (s : Server) : Bool :=
  s.IsExperimentallyEnabled ExperimentalFGAOnFGAParams && s.fgaOnFGAEnabled

def consistencyParamsNotEnabledMsg : String :=
  "Consistency parameters are not enabled. They can be enabled for experimental use by passing the `--experimentals enable-consistency-params` configuration option when running OpenFGA server"

/-- `Server.validateConsistencyRequest`: if the requested consistency
preference is not UNSPECIFIED, but the experimental flag is not enabled,
returns an error. -/
def Server.validateConsistencyRequest (s : Server) (c : ConsistencyPreference) :
    Option ApiError :=
  if s.IsExperimentallyEnabled ExperimentalEnableConsistencyParams = false ∧
      c ≠ ConsistencyPreference.unspecified then
    some (ApiError.statusError StatusCode.invalidArgument consistencyParamsNotEnabledMsg)
  else
    none

/-- The `if !validator.RequestIsValidatedFromContext(ctx) { req.Validate() }`
prologue shared by every handler; the oracle answer for `req.Validate()` is
`validateErr`. -/
def requestValidationError (ctx : RequestContext) (validateErr : Option String) :
    Option ApiError :=
  if ctx.requestValidated then none
  else
    match validateErr with
    | some msg => some (ApiError.statusError StatusCode.invalidArgument msg)
    | none => none

/-- The observable outcome of one handler call: the returned value or error,
the headers it set on the transport, and whether the guarded method body (the
command / resolver execution) ran. -/
structure MethodResult (ρ : Type) where
  result : Except ApiError ρ
  headers : List HttpHeader
  bodyRan : Bool

deriving instance DecidableEq for Except

instance {ρ : Type} [DecidableEq ρ] : DecidableEq (MethodResult ρ) := fun a b =>
  decidable_of_iff (a.result = b.result ∧ a.headers = b.headers ∧ a.bodyRan = b.bodyRan)
    (by cases a; cases b; simp)

/-- `Server.CheckAuthz` (server.go:1204). -/
def Server.CheckAuthz (s : Server) (ctx : RequestContext) (storeID apiMethod : String)
    (modules : List String) : Option ApiError :=
  match s.authorizer with
  | none => none
  | some a =>
    match authClaimsFromContext ctx with
    | none => some internalNoClientIDErr
    | some claims =>
      match a.authorize claims.clientID storeID apiMethod modules with
      | Except.error e => some (ApiError.goErr e)
      | Except.ok true => none
      | Except.ok false => some permissionDeniedErr

/-- `Server.CheckCreateStoreAuthz` (server.go:1186). -/
def Server.CheckCreateStoreAuthz (s : Server) (ctx : RequestContext) : Option ApiError :=
  match s.authorizer with
  | none => none
  | some a =>
    match authClaimsFromContext ctx with
    | none => some internalNoClientIDErr
    | some claims =>
      match a.authorizeCreateStore claims.clientID with
      | Except.error e => some (ApiError.goErr e)
      | Except.ok true => none
      | Except.ok false => some permissionDeniedErr

/-- `Server.CheckAuthzListStores` (server.go:1171).  `none` models the Go
`nil` slice returned when no authorizer is configured; `some list` the slice
obtained from `ListAuthorizedStores`. -/
def Server.CheckAuthzListStores (s : Server) (ctx : RequestContext) :
    Except ApiError (Option (List String)) :=
  match s.authorizer with
  | none => Except.ok none
  | some a =>
    match authClaimsFromContext ctx with
    | none => Except.error internalNoClientIDErr
    | some claims =>
      match a.listAuthorizedStores claims.clientID with
      | Except.error e => Except.error (ApiError.goErr e)
      | Except.ok list => Except.ok (some list)

/-- `openfgav1.TupleKey`, reduced to the fields the embedded code reads. -/
structure TupleKey where
  object : String
  relation : String
  user : String
deriving DecidableEq, Repr

/-- Splits a character list at the first `:`, returning `none` when there is
no colon (`strings.IndexByte(object, ':') == -1`). -/
def splitAtFirstColon : List Char → Option (List Char × List Char)
  | [] => none
  | c :: rest =>
    if c = ':' then some ([], rest)
    else
      match splitAtFirstColon rest with
      | none => none
      | some (l, r) => some (c :: l, r)

/-- `tuple.SplitObject`: splits `"type:id"` at the first `:`; an object with
no colon yields an empty type. -/
def SplitObject (object : String) : String × String :=
  match splitAtFirstColon object.toList with
  | none => ("", object)
  | some (t, rest) => (String.mk t, String.mk rest)

/-- `openfgav1.CheckRequest`, reduced to the fields the handler reads. -/
structure CheckRequest where
  storeId : String
  tupleKey : TupleKey
  consistency : ConsistencyPreference
deriving DecidableEq, Repr

/-- `openfgav1.CheckResponse`. -/
structure CheckResponse where
  allowed : Bool
deriving DecidableEq, Repr

/-- Oracle answers consumed by `CheckWithoutAuthz`: the request proto
validation, the typesystem resolution, the two tuple validations, and the
outcome of `checkResolver.ResolveCheck` together with the final value of the
shared `WasThrottled` request-metadata flag. -/
structure CheckEnv where
  validateErr : Option String
  typesys : Except ApiError TypeSystem
  userObjectRelationErr : Option GoError
  contextualTupleErr : Option GoError
  resolveResult : Except GoError Bool
  wasThrottled : Bool

/-- `Server.CheckWithoutAuthz` (server.go:1045): consistency validation,
request validation, typesystem resolution (which sets the model-id header),
tuple validations, then the resolver call with its error mapping. -/
def Server.CheckWithoutAuthz (s : Server) (ctx : RequestContext) (env : CheckEnv)
    (req : CheckRequest) : MethodResult CheckResponse :=
  match s.validateConsistencyRequest req.consistency with
  | some e => { result := Except.error e, headers := [], bodyRan := false }
  | none =>
    match requestValidationError ctx env.validateErr with
    | some e => { result := Except.error e, headers := [], bodyRan := false }
    | none =>
      match env.typesys with
      | Except.error e => { result := Except.error e, headers := [], bodyRan := false }
      | Except.ok ts =>
        let hdrs := [HttpHeader.authorizationModelID ts.modelID]
        match env.userObjectRelationErr with
        | some e =>
          { result := Except.error (ApiError.validationError e), headers := hdrs, bodyRan := false }
        | none =>
          match env.contextualTupleErr with
          | some e =>
            { result := Except.error (ApiError.handleTupleValidateError e), headers := hdrs,
              bodyRan := false }
          | none =>
            match env.resolveResult with
            | Except.error e =>
              if e = GoError.resolutionDepthExceeded then
                { result := Except.error ApiError.authorizationModelResolutionTooComplex,
                  headers := hdrs, bodyRan := true }
              else if e = GoError.conditionEvaluationFailed then
                { result := Except.error (ApiError.validationError e), headers := hdrs,
                  bodyRan := true }
              else if e = GoError.deadlineExceeded ∧ env.wasThrottled then
                { result := Except.error ApiError.throttledTimeout, headers := hdrs,
                  bodyRan := true }
              else
                { result := Except.error (ApiError.handleError e), headers := hdrs,
                  bodyRan := true }
            | Except.ok allowed =>
              { result := Except.ok { allowed := allowed }, headers := hdrs, bodyRan := true }

/-- `Server.Check` (server.go:1222): the authorization gate, then
`CheckWithoutAuthz`. -/
def Server.Check (s : Server) (ctx : RequestContext) (env : CheckEnv) (req : CheckRequest) :
    MethodResult CheckResponse :=
  match s.CheckAuthz ctx req.storeId "Check" [] with
  | some e => { result := Except.error e, headers := [], bodyRan := false }
  | none => s.CheckWithoutAuthz ctx env req

/-- Oracle answers for handlers that validate the request and then run one
storage command whose result type is `ρ`. -/
structure SimpleEnv (ρ : Type) where
  validateErr : Option String
  cmdResult : Except ApiError ρ

/-- Oracle answers for handlers that additionally resolve the typesystem
before running their command. -/
structure TypesysEnv (ρ : Type) where
  validateErr : Option String
  typesys : Except ApiError TypeSystem
  cmdResult : Except ApiError ρ

/-- `Server.Read` (server.go:907): gate, consistency validation, request
validation, then `ReadQuery.Execute`. -/
def Server.Read (s : Server) (ctx : RequestContext) {ρ : Type} (env : SimpleEnv ρ)
    (storeID : String) (consistency : ConsistencyPreference) : MethodResult ρ :=
  match s.CheckAuthz ctx storeID "Read" [] with
  | some e => { result := Except.error e, headers := [], bodyRan := false }
  | none =>
    match s.validateConsistencyRequest consistency with
    | some e => { result := Except.error e, headers := [], bodyRan := false }
    | none =>
      match requestValidationError ctx env.validateErr with
      | some e => { result := Except.error e, headers := [], bodyRan := false }
      | none =>
        match env.cmdResult with
        | Except.error e => { result := Except.error e, headers := [], bodyRan := true }
        | Except.ok v => { result := Except.ok v, headers := [], bodyRan := true }

/-- `Server.Expand` (server.go:1231): gate, consistency validation, request
validation, typesystem resolution, then `ExpandQuery.Execute`. -/
def Server.Expand (s : Server) (ctx : RequestContext) {ρ : Type} (env : TypesysEnv ρ)
    (storeID : String) (consistency : ConsistencyPreference) : MethodResult ρ :=
  match s.CheckAuthz ctx storeID "Expand" [] with
  | some e => { result := Except.error e, headers := [], bodyRan := false }
  | none =>
    match s.validateConsistencyRequest consistency with
    | some e => { result := Except.error e, headers := [], bodyRan := false }
    | none =>
      match requestValidationError ctx env.validateErr with
      | some e => { result := Except.error e, headers := [], bodyRan := false }
      | none =>
        match env.typesys with
        | Except.error e => { result := Except.error e, headers := [], bodyRan := false }
        | Except.ok ts =>
          let hdrs := [HttpHeader.authorizationModelID ts.modelID]
          match env.cmdResult with
          | Except.error e => { result := Except.error e, headers := hdrs, bodyRan := true }
          | Except.ok v => { result := Except.ok v, headers := hdrs, bodyRan := true }

/-- Oracle answers for `ListObjectsWithoutAuthz` / `StreamedListObjects`: the
request validation, the typesystem resolution, the fallible
`NewListObjectsQuery` construction, and the query execution producing the
object list. -/
structure ListObjectsEnv where
  validateErr : Option String
  typesys : Except ApiError TypeSystem
  queryBuildErr : Option GoError
  executeResult : Except GoError (List String)

/-- `Server.ListObjectsWithoutAuthz` (server.go:686): consistency validation,
request validation, typesystem resolution, query construction (an error there
is wrapped as an internal error), then execution; an execution error is
returned verbatim except `condition.ErrEvaluationFailed`, which becomes a
validation error. -/
def Server.ListObjectsWithoutAuthz (s : Server) (ctx : RequestContext) (env : ListObjectsEnv)
    (consistency : ConsistencyPreference) : MethodResult (List String) :=
  match s.validateConsistencyRequest consistency with
  | some e => { result := Except.error e, headers := [], bodyRan := false }
  | none =>
    match requestValidationError ctx env.validateErr with
    | some e => { result := Except.error e, headers := [], bodyRan := false }
    | none =>
      match env.typesys with
      | Except.error e => { result := Except.error e, headers := [], bodyRan := false }
      | Except.ok ts =>
        let hdrs := [HttpHeader.authorizationModelID ts.modelID]
        match env.queryBuildErr with
        | some e => { result := Except.error (ApiError.internalError e), headers := hdrs,
                      bodyRan := false }
        | none =>
          match env.executeResult with
          | Except.error e =>
            if e = GoError.conditionEvaluationFailed then
              { result := Except.error (ApiError.validationError e), headers := hdrs,
                bodyRan := true }
            else
              { result := Except.error (ApiError.goErr e), headers := hdrs, bodyRan := true }
          | Except.ok objects =>
            { result := Except.ok objects, headers := hdrs, bodyRan := true }

/-- `Server.ListObjects` (server.go:796): the gate, then
`ListObjectsWithoutAuthz`. -/
def Server.ListObjects (s : Server) (ctx : RequestContext) (env : ListObjectsEnv)
    (storeID : String) (consistency : ConsistencyPreference) : MethodResult (List String) :=
  match s.CheckAuthz ctx storeID "ListObjects" [] with
  | some e => { result := Except.error e, headers := [], bodyRan := false }
  | none => s.ListObjectsWithoutAuthz ctx env consistency

/-- `Server.StreamedListObjects` (server.go:805).  Note that the gate is
invoked on `context.Background()`, not on the stream's request context; the
rest of the handler uses the stream context `ctx`.  An execution error is
returned verbatim. -/
def Server.StreamedListObjects (s : Server) (ctx : RequestContext) (env : ListObjectsEnv)
    (storeID : String) (consistency : ConsistencyPreference) : MethodResult Unit :=
  match s.CheckAuthz backgroundContext storeID "StreamedListObjects" [] with
  | some e => { result := Except.error e, headers := [], bodyRan := false }
  | none =>
    match s.validateConsistencyRequest consistency with
    | some e => { result := Except.error e, headers := [], bodyRan := false }
    | none =>
      match requestValidationError ctx env.validateErr with
      | some e => { result := Except.error e, headers := [], bodyRan := false }
      | none =>
        match env.typesys with
        | Except.error e => { result := Except.error e, headers := [], bodyRan := false }
        | Except.ok ts =>
          let hdrs := [HttpHeader.authorizationModelID ts.modelID]
          match env.queryBuildErr with
          | some e => { result := Except.error (ApiError.internalError e), headers := hdrs,
                        bodyRan := false }
          | none =>
            match env.executeResult with
            | Except.error e =>
              { result := Except.error (ApiError.goErr e), headers := hdrs, bodyRan := true }
            | Except.ok _ =>
              { result := Except.ok (), headers := hdrs, bodyRan := true }

/-- `openfgav1.WriteRequest`, reduced to the fields the handler reads. -/
structure WriteRequest where
  storeId : String
  writes : List TupleKey
  deletes : List TupleKey
deriving DecidableEq, Repr

/-- Inserting a key into the Go `map[string]struct\x7b\x7d` of modules,
represented as the list of its keys in insertion order. -/
def insertModuleKey (m : List String) (x : String) : List String :=
  if m.contains x then m else m ++ [x]

/-- The `for _, tupleKey := range req.GetWrites().GetTupleKeys()` loop of
`getModulesForWriteRequest`: accumulates modules, and stops with
`shouldCheckOnStore = true` on the first tuple whose type has no module. -/
def modulesFromWrites (ts : TypeSystem) :
    List TupleKey → List String → Except GoError (Bool × List String)
  | [], acc => Except.ok (false, acc)
  | tk :: rest, acc =>
    match ts.moduleOf (SplitObject tk.object).fst tk.relation with
    | Except.error e => Except.error e
    | Except.ok m =>
      if m = "" then Except.ok (true, acc)
      else modulesFromWrites ts rest (insertModuleKey acc m)

/-- The `for _, tupleKey := range req.GetDeletes().GetTupleKeys()` loop of
`getModulesForWriteRequest`: accumulates modules, and merely breaks (without
setting `shouldCheckOnStore`) on the first tuple whose type has no module. -/
def modulesFromDeletes (ts : TypeSystem) :
    List TupleKey → List String → Except GoError (List String)
  | [], acc => Except.ok acc
  | tk :: rest, acc =>
    match ts.moduleOf (SplitObject tk.object).fst tk.relation with
    | Except.error e => Except.error e
    | Except.ok m =>
      if m = "" then Except.ok acc
      else modulesFromDeletes ts rest (insertModuleKey acc m)

/-- `Server.getModulesForWriteRequest` (server.go:1001). -/
def getModulesForWriteRequest (req : WriteRequest) (ts : TypeSystem) :
    Except GoError (List String) :=
  match modulesFromWrites ts req.writes [] with
  | Except.error e => Except.error e
  | Except.ok (shouldCheckOnStore, acc) =>
    if shouldCheckOnStore then Except.ok []
    else
      match modulesFromDeletes ts req.deletes acc with
      | Except.error e => Except.error e
      | Except.ok acc => Except.ok acc

/-- `Server.Write` (server.go:951): request validation, typesystem resolution,
then — only when FGA-on-FGA is enabled and an authorizer is configured —
module extraction and the gate, and finally `WriteCommand.Execute`.  No
status-code header is set. -/
def Server.Write (s : Server) (ctx : RequestContext) {ρ : Type} (env : TypesysEnv ρ)
    (req : WriteRequest) : MethodResult ρ :=
  match requestValidationError ctx env.validateErr with
  | some e => { result := Except.error e, headers := [], bodyRan := false }
  | none =>
    match env.typesys with
    | Except.error e => { result := Except.error e, headers := [], bodyRan := false }
    | Except.ok ts =>
      let hdrs := [HttpHeader.authorizationModelID ts.modelID]
      if s.fgaOnFgaIsEnabled ∧ s.authorizer.isSome then
        match getModulesForWriteRequest req ts with
        | Except.error e => { result := Except.error (ApiError.goErr e), headers := hdrs,
                              bodyRan := false }
        | Except.ok modules =>
          match s.CheckAuthz ctx req.storeId "Write" modules with
          | some e => { result := Except.error e, headers := hdrs, bodyRan := false }
          | none =>
            match env.cmdResult with
            | Except.error e => { result := Except.error e, headers := hdrs, bodyRan := true }
            | Except.ok v => { result := Except.ok v, headers := hdrs, bodyRan := true }
      else
        match env.cmdResult with
        | Except.error e => { result := Except.error e, headers := hdrs, bodyRan := true }
        | Except.ok v => { result := Except.ok v, headers := hdrs, bodyRan := true }

/-- `Server.ReadAuthorizationModel` (server.go:1278): gate, request
validation, then the query. -/
def Server.ReadAuthorizationModel (s : Server) (ctx : RequestContext) {ρ : Type}
    (env : SimpleEnv ρ) (storeID : String) : MethodResult ρ :=
  match s.CheckAuthz ctx storeID "ReadAuthorizationModel" [] with
  | some e => { result := Except.error e, headers := [], bodyRan := false }
  | none =>
    match requestValidationError ctx env.validateErr with
    | some e => { result := Except.error e, headers := [], bodyRan := false }
    | none =>
      match env.cmdResult with
      | Except.error e => { result := Except.error e, headers := [], bodyRan := true }
      | Except.ok v => { result := Except.ok v, headers := [], bodyRan := true }

/-- `Server.WriteAuthorizationModel` (server.go:1305): gate, request
validation, the command, then on success the `201 Created` status header. -/
def Server.WriteAuthorizationModel (s : Server) (ctx : RequestContext) {ρ : Type}
    (env : SimpleEnv ρ) (storeID : String) : MethodResult ρ :=
  match s.CheckAuthz ctx storeID "WriteAuthorizationModel" [] with
  | some e => { result := Except.error e, headers := [], bodyRan := false }
  | none =>
    match requestValidationError ctx env.validateErr with
    | some e => { result := Except.error e, headers := [], bodyRan := false }
    | none =>
      match env.cmdResult with
      | Except.error e => { result := Except.error e, headers := [], bodyRan := true }
      | Except.ok v =>
        { result := Except.ok v, headers := [HttpHeader.xHttpCode 201], bodyRan := true }

/-- `Server.ReadAuthorizationModels` (server.go:1340): gate, request
validation, then the query. -/
def Server.ReadAuthorizationModels (s : Server) (ctx : RequestContext) {ρ : Type}
    (env : SimpleEnv ρ) (storeID : String) : MethodResult ρ :=
  match s.CheckAuthz ctx storeID "ReadAuthorizationModels" [] with
  | some e => { result := Except.error e, headers := [], bodyRan := false }
  | none =>
    match requestValidationError ctx env.validateErr with
    | some e => { result := Except.error e, headers := [], bodyRan := false }
    | none =>
      match env.cmdResult with
      | Except.error e => { result := Except.error e, headers := [], bodyRan := true }
      | Except.ok v => { result := Except.ok v, headers := [], bodyRan := true }

/-- `Server.WriteAssertions` (server.go:1368): gate, request validation,
typesystem resolution, the command, then on success the `204 No Content`
status header. -/
def Server.WriteAssertions (s : Server) (ctx : RequestContext) {ρ : Type}
    (env : TypesysEnv ρ) (storeID : String) : MethodResult ρ :=
  match s.CheckAuthz ctx storeID "WriteAssertions" [] with
  | some e => { result := Except.error e, headers := [], bodyRan := false }
  | none =>
    match requestValidationError ctx env.validateErr with
    | some e => { result := Except.error e, headers := [], bodyRan := false }
    | none =>
      match env.typesys with
      | Except.error e => { result := Except.error e, headers := [], bodyRan := false }
      | Except.ok ts =>
        let hdrs := [HttpHeader.authorizationModelID ts.modelID]
        match env.cmdResult with
        | Except.error e => { result := Except.error e, headers := hdrs, bodyRan := true }
        | Except.ok v =>
          { result := Except.ok v, headers := hdrs ++ [HttpHeader.xHttpCode 204],
            bodyRan := true }

/-- `Server.ReadAssertions` (server.go:1411): gate, request validation,
typesystem resolution, then the query. -/
def Server.ReadAssertions (s : Server) (ctx : RequestContext) {ρ : Type}
    (env : TypesysEnv ρ) (storeID : String) : MethodResult ρ :=
  match s.CheckAuthz ctx storeID "ReadAssertions" [] with
  | some e => { result := Except.error e, headers := [], bodyRan := false }
  | none =>
    match requestValidationError ctx env.validateErr with
    | some e => { result := Except.error e, headers := [], bodyRan := false }
    | none =>
      match env.typesys with
      | Except.error e => { result := Except.error e, headers := [], bodyRan := false }
      | Except.ok ts =>
        let hdrs := [HttpHeader.authorizationModelID ts.modelID]
        match env.cmdResult with
        | Except.error e => { result := Except.error e, headers := hdrs, bodyRan := true }
        | Except.ok v => { result := Except.ok v, headers := hdrs, bodyRan := true }

/-- `Server.ReadChanges` (server.go:1441): gate, request validation, then the
query. -/
def Server.ReadChanges (s : Server) (ctx : RequestContext) {ρ : Type}
    (env : SimpleEnv ρ) (storeID : String) : MethodResult ρ :=
  match s.CheckAuthz ctx storeID "ReadChanges" [] with
  | some e => { result := Except.error e, headers := [], bodyRan := false }
  | none =>
    match requestValidationError ctx env.validateErr with
    | some e => { result := Except.error e, headers := [], bodyRan := false }
    | none =>
      match env.cmdResult with
      | Except.error e => { result := Except.error e, headers := [], bodyRan := true }
      | Except.ok v => { result := Except.ok v, headers := [], bodyRan := true }

/-- `Server.CreateStore` (server.go:1472): request validation, the
create-store gate, the command, then on success the `201 Created` status
header. -/
def Server.CreateStore (s : Server) (ctx : RequestContext) {ρ : Type}
    (env : SimpleEnv ρ) : MethodResult ρ :=
  match requestValidationError ctx env.validateErr with
  | some e => { result := Except.error e, headers := [], bodyRan := false }
  | none =>
    match s.CheckCreateStoreAuthz ctx with
    | some e => { result := Except.error e, headers := [], bodyRan := false }
    | none =>
      match env.cmdResult with
      | Except.error e => { result := Except.error e, headers := [], bodyRan := true }
      | Except.ok v =>
        { result := Except.ok v, headers := [HttpHeader.xHttpCode 201], bodyRan := true }

/-- `Server.DeleteStore` (server.go:1504): request validation, the gate, the
command, then on success the `204 No Content` status header. -/
def Server.DeleteStore (s : Server) (ctx : RequestContext) {ρ : Type}
    (env : SimpleEnv ρ) (storeID : String) : MethodResult ρ :=
  match requestValidationError ctx env.validateErr with
  | some e => { result := Except.error e, headers := [], bodyRan := false }
  | none =>
    match s.CheckAuthz ctx storeID "DeleteStore" [] with
    | some e => { result := Except.error e, headers := [], bodyRan := false }
    | none =>
      match env.cmdResult with
      | Except.error e => { result := Except.error e, headers := [], bodyRan := true }
      | Except.ok v =>
        { result := Except.ok v, headers := [HttpHeader.xHttpCode 204], bodyRan := true }

/-- `Server.GetStore` (server.go:1536): request validation, the gate, then the
query. -/
def Server.GetStore (s : Server) (ctx : RequestContext) {ρ : Type}
    (env : SimpleEnv ρ) (storeID : String) : MethodResult ρ :=
  match requestValidationError ctx env.validateErr with
  | some e => { result := Except.error e, headers := [], bodyRan := false }
  | none =>
    match s.CheckAuthz ctx storeID "GetStore" [] with
    | some e => { result := Except.error e, headers := [], bodyRan := false }
    | none =>
      match env.cmdResult with
      | Except.error e => { result := Except.error e, headers := [], bodyRan := true }
      | Except.ok v => { result := Except.ok v, headers := [], bodyRan := true }

/-- `openfgav1.Store`, reduced to its id. -/
structure Store where
  id : String
deriving DecidableEq, Repr

/-- `openfgav1.ListStoresResponse`. -/
structure ListStoresResponse where
  stores : List Store
  continuationToken : String
deriving DecidableEq, Repr

/-- Oracle answers for `ListStores`: the request validation and the
`ListStoresQuery.Execute` page with its continuation token. -/
structure ListStoresEnv where
  validateErr : Option String
  queryResult : Except ApiError (List Store × String)

/-- `Server.ListStores` (server.go:1561): request validation,
`CheckAuthzListStores`, the underlying list-stores query, then the filtering
of the returned page to the accessible-stores set; the query's continuation
token is passed through unchanged. -/
def Server.ListStores (s : Server) (ctx : RequestContext) (env : ListStoresEnv) :
    MethodResult ListStoresResponse :=
  match requestValidationError ctx env.validateErr with
  | some e => { result := Except.error e, headers := [], bodyRan := false }
  | none =>
    match s.CheckAuthzListStores ctx with
    | Except.error e => { result := Except.error e, headers := [], bodyRan := false }
    | Except.ok stores =>
      let storesMap := stores.getD []
      match env.queryResult with
      | Except.error e => { result := Except.error e, headers := [], bodyRan := true }
      | Except.ok (page, token) =>
        let accessibleStores := page.filter (fun st => storesMap.contains st.id)
        { result := Except.ok { stores := accessibleStores, continuationToken := token },
          headers := [], bodyRan := true }

/-- The configuration assembled by the options passed to
`NewServerWithOpts`, reduced to the fields its validation reads. -/
structure ServerConfig where
  hasDatastore : Bool
  requestDurationByQueryHistogramBuckets : List Nat
  requestDurationByDispatchCountHistogramBuckets : List Nat
  checkDispatchThrottlingEnabled : Bool
  checkDispatchThrottlingDefaultThreshold : Nat
  checkDispatchThrottlingMaxThreshold : Nat
  listObjectsDispatchDefaultThreshold : Nat
  listObjectsDispatchThrottlingMaxThreshold : Nat
  listUsersDispatchDefaultThreshold : Nat
  listUsersDispatchThrottlingMaxThreshold : Nat
  experimentals : List String
  fgaOnFGAEnabled : Bool
  fgaOnFGAStoreID : String
  fgaOnFGAModelID : String
deriving DecidableEq, Repr

/-- The distinct construction errors `NewServerWithOpts` (and the
`validateFGAOnFGAEnabled` call it makes) can return. -/
inductive ServerConstructionError
  | datastoreMissing
  | queryDurationBucketsEmpty
  | dispatchDurationBucketsEmpty
  | checkDefaultThresholdAboveMax
  | listObjectsDefaultThresholdAboveMax
  | listUsersDefaultThresholdAboveMax
  | fgaOnFGAParamsMissing
deriving DecidableEq, Repr

/-- `Server.fgaOnFgaIsEnabled`, evaluated on the assembled configuration. -/
def ServerConfig.fgaOnFgaIsEnabled (c : ServerConfig) : Bool :=
  c.experimentals.contains ExperimentalFGAOnFGAParams && c.fgaOnFGAEnabled

/-- The fallible validation performed by `NewServerWithOpts`
(server.go:581-602 and the `validateFGAOnFGAEnabled` call at 653): the first
failing check's error, or `none` when construction passes validation. -/
def newServerWithOptsValidation (c : ServerConfig) : Option ServerConstructionError :=
  if c.hasDatastore = false then
    some ServerConstructionError.datastoreMissing
  else if c.requestDurationByQueryHistogramBuckets.length = 0 then
    some ServerConstructionError.queryDurationBucketsEmpty
  else if c.requestDurationByDispatchCountHistogramBuckets.length = 0 then
    some ServerConstructionError.dispatchDurationBucketsEmpty
  else if c.checkDispatchThrottlingEnabled = true ∧
      c.checkDispatchThrottlingMaxThreshold ≠ 0 ∧
      c.checkDispatchThrottlingDefaultThreshold > c.checkDispatchThrottlingMaxThreshold then
    some ServerConstructionError.checkDefaultThresholdAboveMax
  else if c.listObjectsDispatchThrottlingMaxThreshold ≠ 0 ∧
      c.listObjectsDispatchDefaultThreshold > c.listObjectsDispatchThrottlingMaxThreshold then
    some ServerConstructionError.listObjectsDefaultThresholdAboveMax
  else if c.listUsersDispatchThrottlingMaxThreshold ≠ 0 ∧
      c.listUsersDispatchDefaultThreshold > c.listUsersDispatchThrottlingMaxThreshold then
    some ServerConstructionError.listUsersDefaultThresholdAboveMax
  else if c.fgaOnFgaIsEnabled = true ∧ (c.fgaOnFGAStoreID = "" ∨ c.fgaOnFGAModelID = "") then
    some ServerConstructionError.fgaOnFGAParamsMissing
  else
    none

/-! ## Shared fixtures and helper lemmas -/

/-- A background context carries no auth claims. -/
theorem authClaimsFromContext_background : authClaimsFromContext backgroundContext = none := rfl

/-- An authorizer oracle that denies every request. -/
def oracleDenyAll : AuthorizerOracle where
  authorize := fun _ _ _ _ => Except.ok false
  authorizeCreateStore := fun _ => Except.ok false
  listAuthorizedStores := fun _ => Except.ok []

/-- A server with FGA-on-FGA enabled and the deny-all authorizer installed. -/
def serverFGA : Server where
  experimentals := [ExperimentalFGAOnFGAParams]
  fgaOnFGAEnabled := true
  fgaOnFGAStoreID := "01-fga-store"
  fgaOnFGAModelID := "01-fga-model"
  authorizer := some oracleDenyAll

/-- A server with no experimentals and no authorizer. -/
def serverPlain : Server where
  experimentals := []
  fgaOnFGAEnabled := false
  fgaOnFGAStoreID := ""
  fgaOnFGAModelID := ""
  authorizer := none

/-- A request context carrying no auth claims, with proto validation already
performed by the middleware. -/
def ctxNoClaims : RequestContext := { authClaims := none, requestValidated := true }

/-- A request context authenticated as `client-1`, with proto validation
already performed by the middleware. -/
def ctxClient : RequestContext :=
  { authClaims := some { clientID := "client-1" }, requestValidated := true }

/-- A typesystem whose every relation has no module metadata. -/
def tsSample : TypeSystem where
  modelID := "model-1"
  moduleOf := fun _ _ => Except.ok ""

def tkSample : TupleKey := { object := "doc:1", relation := "viewer", user := "user:anne" }

def cenvOk : CheckEnv where
  validateErr := none
  typesys := Except.ok tsSample
  userObjectRelationErr := none
  contextualTupleErr := none
  resolveResult := Except.ok true
  wasThrottled := false

def rEnvOk : SimpleEnv Nat := { validateErr := none, cmdResult := Except.ok 0 }

def tEnvOk : TypesysEnv Nat :=
  { validateErr := none, typesys := Except.ok tsSample, cmdResult := Except.ok 0 }

def loEnvOk : ListObjectsEnv where
  validateErr := none
  typesys := Except.ok tsSample
  queryBuildErr := none
  executeResult := Except.ok []

/-! ## C2 — depth-exceeded maps to the typed "too complex" error -/

/-- C2: for every Check request whose earlier stages pass, a
resolution-depth-exceeded error from the resolver is surfaced as the typed
"authorization model resolution too complex" error — not as a generic
internal error and not as `allowed = false` — both from `CheckWithoutAuthz`
and through the `Check` endpoint when its gate passes. -/
theorem check_depthExceeded_tooComplex
    (s : Server) (ctx : RequestContext) (env : CheckEnv) (req : CheckRequest)
    (hcons : s.validateConsistencyRequest req.consistency = none)
    (hval : requestValidationError ctx env.validateErr = none)
    (ts : TypeSystem) (hts : env.typesys = Except.ok ts)
    (h1 : env.userObjectRelationErr = none)
    (h2 : env.contextualTupleErr = none)
    (hres : env.resolveResult = Except.error GoError.resolutionDepthExceeded)
    (hgate : s.CheckAuthz ctx req.storeId "Check" [] = none) :
    (s.CheckWithoutAuthz ctx env req).result
        = Except.error ApiError.authorizationModelResolutionTooComplex
    ∧ (s.Check ctx env req).result
        = Except.error ApiError.authorizationModelResolutionTooComplex := by
  constructor <;>
    simp [Server.Check, Server.CheckWithoutAuthz, hcons, hval, hts, h1, h2, hres, hgate]

/-- Witness for C2 at a concrete server, context and environment. -/
theorem check_depthExceeded_tooComplex_witness :
    ((serverPlain.Check ctxNoClaims
        { cenvOk with resolveResult := Except.error GoError.resolutionDepthExceeded }
        { storeId := "store-1", tupleKey := tkSample,
          consistency := ConsistencyPreference.unspecified }).result
      = Except.error ApiError.authorizationModelResolutionTooComplex) :=
  (check_depthExceeded_tooComplex serverPlain ctxNoClaims
    { cenvOk with resolveResult := Except.error GoError.resolutionDepthExceeded }
    { storeId := "store-1", tupleKey := tkSample,
      consistency := ConsistencyPreference.unspecified }
    rfl rfl tsSample rfl rfl rfl rfl rfl).2

/-! ## C3 — deadline-exceeded plus `wasThrottled` maps to "throttled timeout" -/

/-- C3: for every Check request whose earlier stages pass, a
deadline-exceeded error from the resolver with the request metadata's
`WasThrottled` flag set is surfaced as the typed "throttled timeout" error,
while the same error with `WasThrottled = false` goes through the generic
error handler and is not the throttled-timeout error. -/
theorem check_throttledDeadline_mapping
    (s : Server) (ctx : RequestContext) (envT envF : CheckEnv) (req : CheckRequest)
    (hcons : s.validateConsistencyRequest req.consistency = none)
    (hvalT : requestValidationError ctx envT.validateErr = none)
    (hvalF : requestValidationError ctx envF.validateErr = none)
    (ts : TypeSystem) (htsT : envT.typesys = Except.ok ts) (htsF : envF.typesys = Except.ok ts)
    (h1T : envT.userObjectRelationErr = none) (h1F : envF.userObjectRelationErr = none)
    (h2T : envT.contextualTupleErr = none) (h2F : envF.contextualTupleErr = none)
    (hresT : envT.resolveResult = Except.error GoError.deadlineExceeded)
    (hresF : envF.resolveResult = Except.error GoError.deadlineExceeded)
    (hthT : envT.wasThrottled = true)
    (hthF : envF.wasThrottled = false) :
    (s.CheckWithoutAuthz ctx envT req).result = Except.error ApiError.throttledTimeout
    ∧ (s.CheckWithoutAuthz ctx envF req).result
        = Except.error (ApiError.handleError GoError.deadlineExceeded)
    ∧ (s.CheckWithoutAuthz ctx envF req).result ≠ Except.error ApiError.throttledTimeout := by
  refine ⟨?_, ?_, ?_⟩ <;>
    simp [Server.CheckWithoutAuthz, hcons, hvalT, hvalF, htsT, htsF, h1T, h1F, h2T, h2F,
      hresT, hresF, hthT, hthF]

/-- Witness for C3 at a concrete server, context and environments. -/
theorem check_throttledDeadline_mapping_witness :
    ((serverPlain.CheckWithoutAuthz ctxNoClaims
        { cenvOk with resolveResult := Except.error GoError.deadlineExceeded,
                      wasThrottled := true }
        { storeId := "store-1", tupleKey := tkSample,
          consistency := ConsistencyPreference.unspecified }).result
      = Except.error ApiError.throttledTimeout)
    ∧ ((serverPlain.CheckWithoutAuthz ctxNoClaims
        { cenvOk with resolveResult := Except.error GoError.deadlineExceeded,
                      wasThrottled := false }
        { storeId := "store-1", tupleKey := tkSample,
          consistency := ConsistencyPreference.unspecified }).result
      = Except.error (ApiError.handleError GoError.deadlineExceeded)) := by
  have h := check_throttledDeadline_mapping serverPlain ctxNoClaims
    { cenvOk with resolveResult := Except.error GoError.deadlineExceeded, wasThrottled := true }
    { cenvOk with resolveResult := Except.error GoError.deadlineExceeded, wasThrottled := false }
    { storeId := "store-1", tupleKey := tkSample,
      consistency := ConsistencyPreference.unspecified }
    rfl rfl rfl tsSample rfl rfl rfl rfl rfl rfl rfl rfl rfl rfl
  exact ⟨h.1, h.2.1⟩

/-! ## C1 — the authorization gate fails closed with stable messages -/

/-- C1: for every API call guarded by the authorizer, when auth claims are
absent from the context the gate sees, the call returns the internal error
with the stable message "client ID not found in context"; when the authorizer
answers not-authorized, the call returns the permission-denied error with the
stable message "permission denied"; in neither case does the guarded method
body run.  (`StreamedListObjects` hands `context.Background()` — which
carries no claims — to its gate, so it appears in the absent-claims part.)
For the methods whose request validation precedes the gate, the validation is
assumed to pass, and for `Write` the typesystem resolution and module
extraction preceding its gate are assumed to succeed. -/
theorem checkAuthz_fail_closed
    (s : Server) (a : AuthorizerOracle) (hauth : s.authorizer = some a)
    (ctxA : RequestContext) (hA : authClaimsFromContext ctxA = none)
    (hAv : ctxA.requestValidated = true)
    (ctxD : RequestContext) (claims : AuthClaims)
    (hD : authClaimsFromContext ctxD = some claims)
    (hDv : ctxD.requestValidated = true)
    (sid : String)
    (hdeny : ∀ m mods, a.authorize claims.clientID sid m mods = Except.ok false)
    (hdenyCreate : a.authorizeCreateStore claims.clientID = Except.ok false)
    {ρ : Type} (cenv : CheckEnv) (rEnv : SimpleEnv ρ) (tEnv : TypesysEnv ρ)
    (loEnv : ListObjectsEnv) (cons : ConsistencyPreference) (tk : TupleKey)
    (ws ds : List TupleKey) (ts : TypeSystem) (ms : List String)
    (hts : tEnv.typesys = Except.ok ts)
    (hms : getModulesForWriteRequest { storeId := sid, writes := ws, deletes := ds } ts
        = Except.ok ms)
    (hfga : s.fgaOnFgaIsEnabled = true) :
    (s.Check ctxA cenv { storeId := sid, tupleKey := tk, consistency := cons }
        = { result := Except.error internalNoClientIDErr, headers := [], bodyRan := false }
      ∧ s.Check ctxD cenv { storeId := sid, tupleKey := tk, consistency := cons }
        = { result := Except.error permissionDeniedErr, headers := [], bodyRan := false })
    ∧ (s.Write ctxA tEnv { storeId := sid, writes := ws, deletes := ds }
        = { result := Except.error internalNoClientIDErr,
            headers := [HttpHeader.authorizationModelID ts.modelID], bodyRan := false }
      ∧ s.Write ctxD tEnv { storeId := sid, writes := ws, deletes := ds }
        = { result := Except.error permissionDeniedErr,
            headers := [HttpHeader.authorizationModelID ts.modelID], bodyRan := false })
    ∧ (s.ListObjects ctxA loEnv sid cons
        = { result := Except.error internalNoClientIDErr, headers := [], bodyRan := false }
      ∧ s.ListObjects ctxD loEnv sid cons
        = { result := Except.error permissionDeniedErr, headers := [], bodyRan := false })
    ∧ (s.StreamedListObjects ctxA loEnv sid cons
        = { result := Except.error internalNoClientIDErr, headers := [], bodyRan := false }
      ∧ s.StreamedListObjects ctxD loEnv sid cons
        = { result := Except.error internalNoClientIDErr, headers := [], bodyRan := false })
    ∧ (s.Read ctxA rEnv sid cons
        = { result := Except.error internalNoClientIDErr, headers := [], bodyRan := false }
      ∧ s.Read ctxD rEnv sid cons
        = { result := Except.error permissionDeniedErr, headers := [], bodyRan := false })
    ∧ (s.Expand ctxA tEnv sid cons
        = { result := Except.error internalNoClientIDErr, headers := [], bodyRan := false }
      ∧ s.Expand ctxD tEnv sid cons
        = { result := Except.error permissionDeniedErr, headers := [], bodyRan := false })
    ∧ (s.ReadAuthorizationModel ctxA rEnv sid
        = { result := Except.error internalNoClientIDErr, headers := [], bodyRan := false }
      ∧ s.ReadAuthorizationModel ctxD rEnv sid
        = { result := Except.error permissionDeniedErr, headers := [], bodyRan := false })
    ∧ (s.WriteAuthorizationModel ctxA rEnv sid
        = { result := Except.error internalNoClientIDErr, headers := [], bodyRan := false }
      ∧ s.WriteAuthorizationModel ctxD rEnv sid
        = { result := Except.error permissionDeniedErr, headers := [], bodyRan := false })
    ∧ (s.ReadAuthorizationModels ctxA rEnv sid
        = { result := Except.error internalNoClientIDErr, headers := [], bodyRan := false }
      ∧ s.ReadAuthorizationModels ctxD rEnv sid
        = { result := Except.error permissionDeniedErr, headers := [], bodyRan := false })
    ∧ (s.WriteAssertions ctxA tEnv sid
        = { result := Except.error internalNoClientIDErr, headers := [], bodyRan := false }
      ∧ s.WriteAssertions ctxD tEnv sid
        = { result := Except.error permissionDeniedErr, headers := [], bodyRan := false })
    ∧ (s.ReadAssertions ctxA tEnv sid
        = { result := Except.error internalNoClientIDErr, headers := [], bodyRan := false }
      ∧ s.ReadAssertions ctxD tEnv sid
        = { result := Except.error permissionDeniedErr, headers := [], bodyRan := false })
    ∧ (s.ReadChanges ctxA rEnv sid
        = { result := Except.error internalNoClientIDErr, headers := [], bodyRan := false }
      ∧ s.ReadChanges ctxD rEnv sid
        = { result := Except.error permissionDeniedErr, headers := [], bodyRan := false })
    ∧ (s.CreateStore ctxA rEnv
        = { result := Except.error internalNoClientIDErr, headers := [], bodyRan := false }
      ∧ s.CreateStore ctxD rEnv
        = { result := Except.error permissionDeniedErr, headers := [], bodyRan := false })
    ∧ (s.DeleteStore ctxA rEnv sid
        = { result := Except.error internalNoClientIDErr, headers := [], bodyRan := false }
      ∧ s.DeleteStore ctxD rEnv sid
        = { result := Except.error permissionDeniedErr, headers := [], bodyRan := false })
    ∧ (s.GetStore ctxA rEnv sid
        = { result := Except.error internalNoClientIDErr, headers := [], bodyRan := false }
      ∧ s.GetStore ctxD rEnv sid
        = { result := Except.error permissionDeniedErr, headers := [], bodyRan := false }) := by
  refine ⟨⟨?_, ?_⟩, ⟨?_, ?_⟩, ⟨?_, ?_⟩, ⟨?_, ?_⟩, ⟨?_, ?_⟩, ⟨?_, ?_⟩, ⟨?_, ?_⟩, ⟨?_, ?_⟩,
    ⟨?_, ?_⟩, ⟨?_, ?_⟩, ⟨?_, ?_⟩, ⟨?_, ?_⟩, ⟨?_, ?_⟩, ⟨?_, ?_⟩, ⟨?_, ?_⟩⟩ <;>
    simp [Server.Check, Server.Write, Server.ListObjects, Server.StreamedListObjects,
      Server.Read, Server.Expand, Server.ReadAuthorizationModel,
      Server.WriteAuthorizationModel, Server.ReadAuthorizationModels, Server.WriteAssertions,
      Server.ReadAssertions, Server.ReadChanges, Server.CreateStore, Server.DeleteStore,
      Server.GetStore, Server.CheckAuthz, Server.CheckCreateStoreAuthz,
      requestValidationError, authClaimsFromContext_background,
      hauth, hA, hD, hAv, hDv, hdeny, hdenyCreate, hts, hms, hfga]

/-- Witness for C1 at a concrete server with a deny-all authorizer: a
claims-less context yields the stable internal error and a denied client the
stable permission-denied error, without the body running. -/
theorem checkAuthz_fail_closed_witness :
    (serverFGA.Check ctxNoClaims cenvOk
        { storeId := "store-1", tupleKey := tkSample,
          consistency := ConsistencyPreference.unspecified }
      = { result := Except.error internalNoClientIDErr, headers := [], bodyRan := false })
    ∧ (serverFGA.Check ctxClient cenvOk
        { storeId := "store-1", tupleKey := tkSample,
          consistency := ConsistencyPreference.unspecified }
      = { result := Except.error permissionDeniedErr, headers := [], bodyRan := false })
    ∧ (serverFGA.Write ctxClient tEnvOk { storeId := "store-1", writes := [], deletes := [] }
      = { result := Except.error permissionDeniedErr,
          headers := [HttpHeader.authorizationModelID "model-1"], bodyRan := false }) := by
  have h := checkAuthz_fail_closed serverFGA oracleDenyAll rfl ctxNoClaims rfl rfl
    ctxClient { clientID := "client-1" } (by decide) rfl "store-1"
    (fun _ _ => rfl) rfl cenvOk rEnvOk tEnvOk loEnvOk ConsistencyPreference.unspecified
    tkSample [] [] tsSample [] rfl rfl (by decide)
  exact ⟨h.1.1, h.1.2, h.2.1.2⟩

/-! ## C5 — authorizer errors take precedence over method-body errors -/

/-- C5: for every guarded API method, when the authorization gate fails —
with any error, be it the internal missing-client error, permission denied,
or an error from the authorizer itself — that error is what the call returns,
and the method body (the command or resolver execution) never runs, so no
other processing produces the surfaced error.  In particular this holds for
`Write`, whose gate runs only after the typesystem resolution and module
extraction succeed, and for `CreateStore` with its dedicated gate. -/
theorem gate_error_precedence
    (s : Server) (ctx : RequestContext) (sid : String) (e : ApiError)
    (hgate : ∀ m mods, s.CheckAuthz ctx sid m mods = some e)
    (eBg : ApiError)
    (hgateBg : s.CheckAuthz backgroundContext sid "StreamedListObjects" [] = some eBg)
    (ec : ApiError) (hgatec : s.CheckCreateStoreAuthz ctx = some ec)
    (hv : ctx.requestValidated = true)
    {ρ : Type} (cenv : CheckEnv) (rEnv : SimpleEnv ρ) (tEnv : TypesysEnv ρ)
    (loEnv : ListObjectsEnv) (cons : ConsistencyPreference) (tk : TupleKey)
    (ws ds : List TupleKey) (ts : TypeSystem) (ms : List String)
    (hts : tEnv.typesys = Except.ok ts)
    (hms : getModulesForWriteRequest { storeId := sid, writes := ws, deletes := ds } ts
        = Except.ok ms)
    (hfga : s.fgaOnFgaIsEnabled = true)
    (hsome : s.authorizer.isSome = true) :
    s.Check ctx cenv { storeId := sid, tupleKey := tk, consistency := cons }
        = { result := Except.error e, headers := [], bodyRan := false }
    ∧ s.Write ctx tEnv { storeId := sid, writes := ws, deletes := ds }
        = { result := Except.error e,
            headers := [HttpHeader.authorizationModelID ts.modelID], bodyRan := false }
    ∧ s.ListObjects ctx loEnv sid cons
        = { result := Except.error e, headers := [], bodyRan := false }
    ∧ s.StreamedListObjects ctx loEnv sid cons
        = { result := Except.error eBg, headers := [], bodyRan := false }
    ∧ s.Read ctx rEnv sid cons
        = { result := Except.error e, headers := [], bodyRan := false }
    ∧ s.Expand ctx tEnv sid cons
        = { result := Except.error e, headers := [], bodyRan := false }
    ∧ s.ReadAuthorizationModel ctx rEnv sid
        = { result := Except.error e, headers := [], bodyRan := false }
    ∧ s.WriteAuthorizationModel ctx rEnv sid
        = { result := Except.error e, headers := [], bodyRan := false }
    ∧ s.ReadAuthorizationModels ctx rEnv sid
        = { result := Except.error e, headers := [], bodyRan := false }
    ∧ s.WriteAssertions ctx tEnv sid
        = { result := Except.error e, headers := [], bodyRan := false }
    ∧ s.ReadAssertions ctx tEnv sid
        = { result := Except.error e, headers := [], bodyRan := false }
    ∧ s.ReadChanges ctx rEnv sid
        = { result := Except.error e, headers := [], bodyRan := false }
    ∧ s.CreateStore ctx rEnv
        = { result := Except.error ec, headers := [], bodyRan := false }
    ∧ s.DeleteStore ctx rEnv sid
        = { result := Except.error e, headers := [], bodyRan := false }
    ∧ s.GetStore ctx rEnv sid
        = { result := Except.error e, headers := [], bodyRan := false } := by
  refine ⟨?_, ?_, ?_, ?_, ?_, ?_, ?_, ?_, ?_, ?_, ?_, ?_, ?_, ?_, ?_⟩ <;>
    simp [Server.Check, Server.Write, Server.ListObjects, Server.StreamedListObjects,
      Server.Read, Server.Expand, Server.ReadAuthorizationModel,
      Server.WriteAuthorizationModel, Server.ReadAuthorizationModels, Server.WriteAssertions,
      Server.ReadAssertions, Server.ReadChanges, Server.CreateStore, Server.DeleteStore,
      Server.GetStore, requestValidationError,
      hgate, hgateBg, hgatec, hv, hts, hms, hfga, hsome]

/-- Witness for C5: the deny-all server with a claims-less context makes
every gate fail with the internal error, which is what each call returns. -/
theorem gate_error_precedence_witness :
    (serverFGA.Write ctxNoClaims tEnvOk { storeId := "store-1", writes := [], deletes := [] }
      = { result := Except.error internalNoClientIDErr,
          headers := [HttpHeader.authorizationModelID "model-1"], bodyRan := false })
    ∧ (serverFGA.CreateStore ctxNoClaims rEnvOk
      = { result := Except.error internalNoClientIDErr, headers := [], bodyRan := false })
    ∧ (serverFGA.DeleteStore ctxNoClaims rEnvOk "store-1"
      = { result := Except.error internalNoClientIDErr, headers := [], bodyRan := false }) := by
  have h := gate_error_precedence serverFGA ctxNoClaims "store-1" internalNoClientIDErr
    (fun _ _ => rfl) internalNoClientIDErr rfl internalNoClientIDErr rfl rfl
    cenvOk rEnvOk tEnvOk loEnvOk ConsistencyPreference.unspecified tkSample
    [] [] tsSample [] rfl rfl (by decide) rfl
  exact ⟨h.2.1, h.2.2.2.2.2.2.2.2.2.2.2.2.1, h.2.2.2.2.2.2.2.2.2.2.2.2.2.1⟩

/-! ## C4 — consistency-preference validation -/

/-- C4 counterexample: on a server without the `enable-consistency-params`
flag, a HIGHER_CONSISTENCY preference is not accepted: it is rejected with
the invalid-argument error, both by `validateConsistencyRequest` and through
the Check endpoint. -/
theorem higherConsistency_rejected_without_flag :
    serverPlain.validateConsistencyRequest ConsistencyPreference.higherConsistency
      = some (ApiError.statusError StatusCode.invalidArgument consistencyParamsNotEnabledMsg)
    ∧ (serverPlain.Check ctxNoClaims cenvOk
        { storeId := "store-1", tupleKey := tkSample,
          consistency := ConsistencyPreference.higherConsistency }).result
      = Except.error
          (ApiError.statusError StatusCode.invalidArgument consistencyParamsNotEnabledMsg) := by
  constructor <;> rfl

/-- C4 amended: for every query endpoint (Check, ListObjects,
StreamedListObjects, Expand, Read), UNSPECIFIED is always accepted; with the
`enable-consistency-params` flag every preference is accepted; without the
flag every non-UNSPECIFIED preference — including HIGHER_CONSISTENCY — is
rejected with the invalid-argument error, which each endpoint returns when
its gate passes. -/
theorem consistency_validation_amended
    (s : Server) (c : ConsistencyPreference) {ρ : Type} :
    s.validateConsistencyRequest ConsistencyPreference.unspecified = none
    ∧ (s.IsExperimentallyEnabled ExperimentalEnableConsistencyParams = true →
        s.validateConsistencyRequest c = none)
    ∧ (s.IsExperimentallyEnabled ExperimentalEnableConsistencyParams = false →
        c ≠ ConsistencyPreference.unspecified →
        s.validateConsistencyRequest c
          = some (ApiError.statusError StatusCode.invalidArgument
              consistencyParamsNotEnabledMsg))
    ∧ (∀ e (ctx : RequestContext) (cenv : CheckEnv) (tk : TupleKey) (sid : String),
        s.validateConsistencyRequest c = some e →
        s.CheckAuthz ctx sid "Check" [] = none →
        (s.Check ctx cenv { storeId := sid, tupleKey := tk, consistency := c }).result
          = Except.error e)
    ∧ (∀ e (ctx : RequestContext) (env : ListObjectsEnv) (sid : String),
        s.validateConsistencyRequest c = some e →
        s.CheckAuthz ctx sid "ListObjects" [] = none →
        (s.ListObjects ctx env sid c).result = Except.error e)
    ∧ (∀ e (ctx : RequestContext) (env : ListObjectsEnv) (sid : String),
        s.validateConsistencyRequest c = some e →
        s.CheckAuthz backgroundContext sid "StreamedListObjects" [] = none →
        (s.StreamedListObjects ctx env sid c).result = Except.error e)
    ∧ (∀ e (ctx : RequestContext) (env : TypesysEnv ρ) (sid : String),
        s.validateConsistencyRequest c = some e →
        s.CheckAuthz ctx sid "Expand" [] = none →
        (s.Expand ctx env sid c).result = Except.error e)
    ∧ (∀ e (ctx : RequestContext) (env : SimpleEnv ρ) (sid : String),
        s.validateConsistencyRequest c = some e →
        s.CheckAuthz ctx sid "Read" [] = none →
        (s.Read ctx env sid c).result = Except.error e) := by
  refine ⟨?_, ?_, ?_, ?_, ?_, ?_, ?_, ?_⟩
  · simp [Server.validateConsistencyRequest]
  · intro h; simp [Server.validateConsistencyRequest, h]
  · intro h hne; simp [Server.validateConsistencyRequest, h, hne]
  · intro e ctx cenv tk sid hc hg
    simp [Server.Check, Server.CheckWithoutAuthz, hc, hg]
  · intro e ctx env sid hc hg
    simp [Server.ListObjects, Server.ListObjectsWithoutAuthz, hc, hg]
  · intro e ctx env sid hc hg
    simp [Server.StreamedListObjects, hc, hg]
  · intro e ctx env sid hc hg
    simp [Server.Expand, hc, hg]
  · intro e ctx env sid hc hg
    simp [Server.Read, hc, hg]

/-- Witness for C4's amended statement: the flag-less server rejects
HIGHER_CONSISTENCY and the Read endpoint surfaces the rejection. -/
theorem consistency_validation_amended_witness :
    serverPlain.validateConsistencyRequest ConsistencyPreference.higherConsistency
      = some (ApiError.statusError StatusCode.invalidArgument consistencyParamsNotEnabledMsg)
    ∧ (serverPlain.Read ctxNoClaims rEnvOk "store-1"
        ConsistencyPreference.higherConsistency).result
      = Except.error
          (ApiError.statusError StatusCode.invalidArgument consistencyParamsNotEnabledMsg) := by
  have h := consistency_validation_amended serverPlain
    ConsistencyPreference.higherConsistency (ρ := Nat)
  have hrej := h.2.2.1 (by decide) (by decide)
  exact ⟨hrej, h.2.2.2.2.2.2.2 _ ctxNoClaims rEnvOk "store-1" hrej rfl⟩

/-! ## C6 — module extraction for Write drops the store fallback for deletes -/

/-- A typesystem where `(workspace, guest)` carries module metadata
(`module1`) and every other relation has none. -/
def tsModules : TypeSystem where
  modelID := "model-2"
  moduleOf := fun t r =>
    if t = "workspace" ∧ r = "guest" then Except.ok "module1" else Except.ok ""

/-- A write batch whose write tuple has a module and whose delete tuple's
`(type, relation)` has no module metadata. -/
def writeReqMixed : WriteRequest where
  storeId := "store-1"
  writes := [{ object := "workspace:1", relation := "guest", user := "user:ben" }]
  deletes := [{ object := "doc:budget", relation := "viewer", user := "user:ben" }]

/-- C6: `getModulesForWriteRequest` evaluated on a batch whose delete tuple
has no module metadata.  The deletes loop merely breaks without setting
`shouldCheckOnStore`, so the function returns the modules collected from the
writes instead of the empty list that its own doc comment ("we should break
and return no modules so that the final fga on fga check will be against the
store") and the claim require for the store-scoped fallback. -/
theorem getModules_delete_without_module_keeps_modules :
    tsModules.moduleOf "doc" "viewer" = Except.ok ""
    ∧ getModulesForWriteRequest writeReqMixed tsModules = Except.ok ["module1"]
    ∧ getModulesForWriteRequest writeReqMixed tsModules ≠ Except.ok [] := by
  refine ⟨by decide, by decide, by decide⟩

/-! ## C7 — ListStores filters to the authorized stores instead of failing -/

/-- C7: with an authorizer configured and auth claims present, `ListStores`
never maps "not authorized" to a permission-denied error: the response's
`Stores` is the underlying query page filtered to the accessible-store ids
obtained from `ListAuthorizedStores` (possibly the empty set), and the
query's continuation token is returned unchanged. -/
theorem listStores_filters_to_authorized
    (s : Server) (a : AuthorizerOracle) (hauth : s.authorizer = some a)
    (ctx : RequestContext) (claims : AuthClaims)
    (hctx : authClaimsFromContext ctx = some claims)
    (hv : ctx.requestValidated = true)
    (l : List String) (hl : a.listAuthorizedStores claims.clientID = Except.ok l)
    (env : ListStoresEnv) (page : List Store) (token : String)
    (hq : env.queryResult = Except.ok (page, token)) :
    s.ListStores ctx env
      = { result := Except.ok { stores := page.filter (fun st => l.contains st.id),
                                continuationToken := token },
          headers := [], bodyRan := true }
    ∧ ∀ msg, (s.ListStores ctx env).result
        ≠ Except.error (ApiError.statusError StatusCode.permissionDenied msg) := by
  have hmain : s.ListStores ctx env
      = { result := Except.ok { stores := page.filter (fun st => l.contains st.id),
                                continuationToken := token },
          headers := [], bodyRan := true } := by
    simp [Server.ListStores, Server.CheckAuthzListStores, requestValidationError,
      hauth, hctx, hv, hl, hq]
  exact ⟨hmain, fun msg => by rw [hmain]; simp⟩

/-- The list-stores query oracle used by the `ListStores` witnesses: a page
of two stores and a nonempty continuation token. -/
def lsEnvTwoStores : ListStoresEnv where
  validateErr := none
  queryResult := Except.ok ([{ id := "s1" }, { id := "s2" }], "tok")

/-- Witness for C7: the deny-all authorizer grants no stores, so the page is
filtered to the empty set and the token passes through. -/
theorem listStores_filters_to_authorized_witness :
    serverFGA.ListStores ctxClient lsEnvTwoStores
      = { result := Except.ok { stores := [], continuationToken := "tok" },
          headers := [], bodyRan := true } := by
  have h := listStores_filters_to_authorized serverFGA oracleDenyAll rfl ctxClient
    { clientID := "client-1" } (by decide) rfl [] rfl lsEnvTwoStores
    [{ id := "s1" }, { id := "s2" }] "tok" rfl
  exact h.1.trans (by decide)

/-! ## C10 — ListStores with no authorizer returns an empty page -/

/-- C10: with no authorizer configured, `CheckAuthzListStores` returns the
nil store list, and consequently `ListStores` filters every page down to an
empty `Stores` list while still returning the query's continuation token
unchanged. -/
theorem listStores_without_authorizer_empty
    (s : Server) (hauth : s.authorizer = none)
    (ctx : RequestContext) (hv : ctx.requestValidated = true)
    (env : ListStoresEnv) (page : List Store) (token : String)
    (hq : env.queryResult = Except.ok (page, token)) :
    s.CheckAuthzListStores ctx = Except.ok none
    ∧ s.ListStores ctx env
      = { result := Except.ok { stores := [], continuationToken := token },
          headers := [], bodyRan := true } := by
  constructor
  · simp [Server.CheckAuthzListStores, hauth]
  · simp [Server.ListStores, Server.CheckAuthzListStores, requestValidationError,
      hauth, hv, hq]

/-- Witness for C10: an authorizer-less server empties a two-store page and
passes the token through. -/
theorem listStores_without_authorizer_empty_witness :
    serverPlain.CheckAuthzListStores ctxNoClaims = Except.ok none
    ∧ serverPlain.ListStores ctxNoClaims lsEnvTwoStores
      = { result := Except.ok { stores := [], continuationToken := "tok" },
          headers := [], bodyRan := true } :=
  listStores_without_authorizer_empty serverPlain rfl ctxNoClaims rfl lsEnvTwoStores
    [{ id := "s1" }, { id := "s2" }] "tok" rfl

/-! ## C8 — status-code headers on successful mutating responses -/

/-- On any successful `Write`, the only header set is the model-id header
from the typesystem resolution: no status-code header is ever set. -/
theorem write_headers_on_success {ρ : Type} (s : Server) (ctx : RequestContext)
    (env : TypesysEnv ρ) (req : WriteRequest) (r : ρ)
    (hr : (s.Write ctx env req).result = Except.ok r) :
    ∃ id, (s.Write ctx env req).headers = [HttpHeader.authorizationModelID id] := by
  rcases h1 : requestValidationError ctx env.validateErr with _ | e₁
  · rcases h2 : env.typesys with e₂ | ts
    · simp [Server.Write, h1, h2] at hr
    · by_cases h3 : s.fgaOnFgaIsEnabled ∧ s.authorizer.isSome
      · rcases h4 : getModulesForWriteRequest req ts with e₄ | ms
        · simp [Server.Write, h1, h2, h3, h4] at hr
        · rcases h5 : s.CheckAuthz ctx req.storeId "Write" ms with _ | e₅
          · rcases h6 : env.cmdResult with e₆ | v
            · simp [Server.Write, h1, h2, h3, h4, h5, h6] at hr
            · exact ⟨ts.modelID, by simp [Server.Write, h1, h2, h3, h4, h5, h6]⟩
          · simp [Server.Write, h1, h2, h3, h4, h5] at hr
      · rcases h6 : env.cmdResult with e₆ | v
        · simp [Server.Write, h1, h2, h3, h6] at hr
        · exact ⟨ts.modelID, by simp [Server.Write, h1, h2, h3, h6]⟩
  · simp [Server.Write, h1] at hr

/-- C8 counterexample: a successful tuple `Write` sets no `204` (indeed no
status-code) header — only the model-id header — contradicting the claim
that the Write endpoint sets a 204 header on success. -/
theorem write_success_sets_no_status_header :
    serverPlain.Write ctxNoClaims tEnvOk { storeId := "store-1", writes := [], deletes := [] }
      = { result := Except.ok 0, headers := [HttpHeader.authorizationModelID "model-1"],
          bodyRan := true }
    ∧ HttpHeader.xHttpCode 204 ∉
        (serverPlain.Write ctxNoClaims tEnvOk
          { storeId := "store-1", writes := [], deletes := [] }).headers := by
  refine ⟨by decide, by decide⟩

/-- C8 amended: on success, `CreateStore` and `WriteAuthorizationModel` set
the `201` status header, `DeleteStore` and `WriteAssertions` set the `204`
status header, and the tuple `Write` endpoint sets no status-code header at
all (only the model-id header). -/
theorem mutating_status_headers_amended
    (s : Server) (ctx : RequestContext) (sid : String)
    {ρ : Type} (env : SimpleEnv ρ) (envT : TypesysEnv ρ) (v : ρ) (ts : TypeSystem)
    (hv : ctx.requestValidated = true)
    (hgate : ∀ m mods, s.CheckAuthz ctx sid m mods = none)
    (hgatec : s.CheckCreateStoreAuthz ctx = none)
    (hcmd : env.cmdResult = Except.ok v)
    (hcmdT : envT.cmdResult = Except.ok v)
    (hts : envT.typesys = Except.ok ts) :
    s.CreateStore ctx env
      = { result := Except.ok v, headers := [HttpHeader.xHttpCode 201], bodyRan := true }
    ∧ s.WriteAuthorizationModel ctx env sid
      = { result := Except.ok v, headers := [HttpHeader.xHttpCode 201], bodyRan := true }
    ∧ s.DeleteStore ctx env sid
      = { result := Except.ok v, headers := [HttpHeader.xHttpCode 204], bodyRan := true }
    ∧ s.WriteAssertions ctx envT sid
      = { result := Except.ok v,
          headers := [HttpHeader.authorizationModelID ts.modelID, HttpHeader.xHttpCode 204],
          bodyRan := true }
    ∧ (∀ (s' : Server) (ctx' : RequestContext) (env' : TypesysEnv ρ) (req' : WriteRequest)
          (r : ρ), (s'.Write ctx' env' req').result = Except.ok r →
        ∃ id, (s'.Write ctx' env' req').headers = [HttpHeader.authorizationModelID id]) := by
  refine ⟨?_, ?_, ?_, ?_, ?_⟩
  · simp [Server.CreateStore, requestValidationError, hv, hgatec, hcmd]
  · simp [Server.WriteAuthorizationModel, requestValidationError, hv, hgate, hcmd]
  · simp [Server.DeleteStore, requestValidationError, hv, hgate, hcmd]
  · simp [Server.WriteAssertions, requestValidationError, hv, hgate, hcmdT, hts]
  · exact fun s' ctx' env' req' r hr => write_headers_on_success s' ctx' env' req' r hr

/-- Witness for C8's amended statement on the plain server with successful
commands. -/
theorem mutating_status_headers_amended_witness :
    serverPlain.CreateStore ctxNoClaims rEnvOk
      = { result := Except.ok 0, headers := [HttpHeader.xHttpCode 201], bodyRan := true }
    ∧ serverPlain.DeleteStore ctxNoClaims rEnvOk "store-1"
      = { result := Except.ok 0, headers := [HttpHeader.xHttpCode 204], bodyRan := true }
    ∧ serverPlain.WriteAssertions ctxNoClaims tEnvOk "store-1"
      = { result := Except.ok 0,
          headers := [HttpHeader.authorizationModelID "model-1", HttpHeader.xHttpCode 204],
          bodyRan := true } := by
  have h := mutating_status_headers_amended serverPlain ctxNoClaims "store-1"
    rEnvOk tEnvOk 0 tsSample rfl (fun _ _ => rfl) rfl rfl rfl rfl
  exact ⟨h.1, h.2.2.1, h.2.2.2.1⟩

/-! ## C9 — construction-time dispatch-throttling validation -/

/-- A configuration whose Check dispatch-throttling thresholds are
inconsistent (`default > max ≠ 0`) but whose Check throttling is disabled. -/
def cfgCheckDisabled : ServerConfig where
  hasDatastore := true
  requestDurationByQueryHistogramBuckets := [50, 200]
  requestDurationByDispatchCountHistogramBuckets := [50, 200]
  checkDispatchThrottlingEnabled := false
  checkDispatchThrottlingDefaultThreshold := 5
  checkDispatchThrottlingMaxThreshold := 1
  listObjectsDispatchDefaultThreshold := 0
  listObjectsDispatchThrottlingMaxThreshold := 0
  listUsersDispatchDefaultThreshold := 0
  listUsersDispatchThrottlingMaxThreshold := 0
  experimentals := []
  fgaOnFGAEnabled := false
  fgaOnFGAStoreID := ""
  fgaOnFGAModelID := ""

/-- The same configuration with Check dispatch throttling enabled. -/
def cfgCheckEnabledBad : ServerConfig :=
  { cfgCheckDisabled with checkDispatchThrottlingEnabled := true }

/-- C9 counterexample: a configuration with `maxThreshold ≠ 0` and
`defaultThreshold > maxThreshold` for Check passes the `NewServerWithOpts`
validation when Check dispatch throttling is disabled, so construction does
not fail as the claim states. -/
theorem check_threshold_validation_skipped_when_disabled :
    cfgCheckDisabled.checkDispatchThrottlingMaxThreshold ≠ 0
    ∧ cfgCheckDisabled.checkDispatchThrottlingDefaultThreshold
        > cfgCheckDisabled.checkDispatchThrottlingMaxThreshold
    ∧ newServerWithOptsValidation cfgCheckDisabled = none := by
  refine ⟨by decide, by decide, by decide⟩

/-- C9 amended: given a datastore and nonempty histogram buckets, the
`NewServerWithOpts` validation fails on `default > max ≠ 0` for Check only
when Check dispatch throttling is enabled, fails for ListObjects and
ListUsers regardless of their enablement, and passes when each of the three
subsystems satisfies `default ≤ max` or `max = 0` (or, for Check, is
disabled) and the FGA-on-FGA parameters validate. -/
theorem newServer_threshold_validation_amended (c : ServerConfig)
    (hds : c.hasDatastore = true)
    (hb1 : c.requestDurationByQueryHistogramBuckets.length ≠ 0)
    (hb2 : c.requestDurationByDispatchCountHistogramBuckets.length ≠ 0) :
    (c.checkDispatchThrottlingEnabled = true →
      c.checkDispatchThrottlingMaxThreshold ≠ 0 →
      c.checkDispatchThrottlingDefaultThreshold > c.checkDispatchThrottlingMaxThreshold →
      newServerWithOptsValidation c
        = some ServerConstructionError.checkDefaultThresholdAboveMax)
    ∧ (¬(c.checkDispatchThrottlingEnabled = true ∧
          c.checkDispatchThrottlingMaxThreshold ≠ 0 ∧
          c.checkDispatchThrottlingDefaultThreshold > c.checkDispatchThrottlingMaxThreshold) →
        c.listObjectsDispatchThrottlingMaxThreshold ≠ 0 →
        c.listObjectsDispatchDefaultThreshold > c.listObjectsDispatchThrottlingMaxThreshold →
        newServerWithOptsValidation c
          = some ServerConstructionError.listObjectsDefaultThresholdAboveMax)
    ∧ (¬(c.checkDispatchThrottlingEnabled = true ∧
          c.checkDispatchThrottlingMaxThreshold ≠ 0 ∧
          c.checkDispatchThrottlingDefaultThreshold > c.checkDispatchThrottlingMaxThreshold) →
        ¬(c.listObjectsDispatchThrottlingMaxThreshold ≠ 0 ∧
          c.listObjectsDispatchDefaultThreshold > c.listObjectsDispatchThrottlingMaxThreshold) →
        c.listUsersDispatchThrottlingMaxThreshold ≠ 0 →
        c.listUsersDispatchDefaultThreshold > c.listUsersDispatchThrottlingMaxThreshold →
        newServerWithOptsValidation c
          = some ServerConstructionError.listUsersDefaultThresholdAboveMax)
    ∧ (¬(c.checkDispatchThrottlingEnabled = true ∧
          c.checkDispatchThrottlingMaxThreshold ≠ 0 ∧
          c.checkDispatchThrottlingDefaultThreshold > c.checkDispatchThrottlingMaxThreshold) →
        ¬(c.listObjectsDispatchThrottlingMaxThreshold ≠ 0 ∧
          c.listObjectsDispatchDefaultThreshold > c.listObjectsDispatchThrottlingMaxThreshold) →
        ¬(c.listUsersDispatchThrottlingMaxThreshold ≠ 0 ∧
          c.listUsersDispatchDefaultThreshold > c.listUsersDispatchThrottlingMaxThreshold) →
        ¬(c.fgaOnFgaIsEnabled = true ∧ (c.fgaOnFGAStoreID = "" ∨ c.fgaOnFGAModelID = "")) →
        newServerWithOptsValidation c = none) := by
  refine ⟨?_, ?_, ?_, ?_⟩
  · intro h1 h2 h3
    unfold newServerWithOptsValidation
    rw [if_neg (by simp [hds]), if_neg hb1, if_neg hb2, if_pos ⟨h1, h2, h3⟩]
  · intro hnc h2 h3
    unfold newServerWithOptsValidation
    rw [if_neg (by simp [hds]), if_neg hb1, if_neg hb2, if_neg hnc, if_pos ⟨h2, h3⟩]
  · intro hnc hnlo h2 h3
    unfold newServerWithOptsValidation
    rw [if_neg (by simp [hds]), if_neg hb1, if_neg hb2, if_neg hnc, if_neg hnlo,
      if_pos ⟨h2, h3⟩]
  · intro hnc hnlo hnlu hnf
    unfold newServerWithOptsValidation
    rw [if_neg (by simp [hds]), if_neg hb1, if_neg hb2, if_neg hnc, if_neg hnlo, if_neg hnlu,
      if_neg hnf]

/-- Witness for C9's amended statement: the disabled inconsistent Check
configuration passes validation, and enabling Check throttling makes the same
configuration fail. -/
theorem newServer_threshold_validation_amended_witness :
    newServerWithOptsValidation cfgCheckDisabled = none
    ∧ newServerWithOptsValidation cfgCheckEnabledBad
      = some ServerConstructionError.checkDefaultThresholdAboveMax := by
  have h1 := (newServer_threshold_validation_amended cfgCheckDisabled
    (by decide) (by decide) (by decide)).2.2.2 (by decide) (by decide) (by decide) (by decide)
  have h2 := (newServer_threshold_validation_amended cfgCheckEnabledBad
    (by decide) (by decide) (by decide)).1 (by decide) (by decide) (by decide)
  exact ⟨h1, h2⟩

end OpenFGA
